import Mathlib

/-!
Verification of the neo-tts voice-resolution and generation-orchestration layer.

The definitions below are a shallow embedding of the Python sources:
  - `src/models/kokoro.py` (voice catalog, kokoro backend `list_voices` /
    `generate_audio`),
  - `src/app/app.py` (backend registry `get_model_module`, ledger append
    `log_generation`, the `/api/voices` and `/api/generate` route handlers).

Audio samples are modelled as integers (their values are never inspected by
the orchestration code); file-system and model-pipeline effects are passed in
explicitly through an environment record, and an outcome record reports the
externally observable effects (which file was written, which ledger row was
appended, which voice the pipeline was invoked with).
-/

namespace NeoTTS

/-- One synthesised audio segment: a list of samples. -/
abbrev AudioSeg := List Int

/-- Embeds `_get_voice_mapping` from `src/models/kokoro.py`: the mapping from
formatted display names to raw voice codes, as an association list in source
order. -/
def voice_mapping : List (String × String) :=
  [ ("🇺🇸 Alloy 🚺 (C)", "af_alloy"),
    ("🇺🇸 Aoede 🚺 (C+)", "af_aoede"),
    ("🇺🇸 Bella 🚺🔥 (A-)", "af_bella"),
    ("🇺🇸 Heart 🚺❤️ (A)", "af_heart"),
    ("🇺🇸 Jessica 🚺 (D)", "af_jessica"),
    ("🇺🇸 Kore 🚺 (C+)", "af_kore"),
    ("🇺🇸 Nicole 🚺🎧 (B-)", "af_nicole"),
    ("🇺🇸 Nova 🚺 (C)", "af_nova"),
    ("🇺🇸 River 🚺 (D)", "af_river"),
    ("🇺🇸 Sarah 🚺 (C+)", "af_sarah"),
    ("🇺🇸 Sky 🚺 (C-)", "af_sky"),
    ("🇺🇸 Adam 🚹 (F+)", "am_adam"),
    ("🇺🇸 Echo 🚹 (D)", "am_echo"),
    ("🇺🇸 Eric 🚹 (D)", "am_eric"),
    ("🇺🇸 Fenrir 🚹 (C+)", "am_fenrir"),
    ("🇺🇸 Liam 🚹 (D)", "am_liam"),
    ("🇺🇸 Michael 🚹 (C+)", "am_michael"),
    ("🇺🇸 Onyx 🚹 (D)", "am_onyx"),
    ("🇺🇸 Puck 🚹 (C+)", "am_puck"),
    ("🇺🇸 Santa 🚹 (D-)", "am_santa"),
    ("🇬🇧 Alice 🚺 (D)", "bf_alice"),
    ("🇬🇧 Emma 🚺 (B-)", "bf_emma"),
    ("🇬🇧 Isabella 🚺 (C)", "bf_isabella"),
    ("🇬🇧 Lily 🚺 (D)", "bf_lily"),
    ("🇬🇧 Daniel 🚹 (D)", "bm_daniel"),
    ("🇬🇧 Fable 🚹 (C)", "bm_fable"),
    ("🇬🇧 George 🚹 (C)", "bm_george"),
    ("🇬🇧 Lewis 🚹 (D+)", "bm_lewis"),
    ("🇯🇵 Alpha 🚺 (C+)", "jf_alpha"),
    ("🇯🇵 Gongitsune 🚺 (C)", "jf_gongitsune"),
    ("🇯🇵 Nezumi 🚺 (C-)", "jf_nezumi"),
    ("🇯🇵 Tebukuro 🚺 (C)", "jf_tebukuro"),
    ("🇯🇵 Kumo 🚹 (C-)", "jm_kumo"),
    ("🇨🇳 Xiaobei 🚺 (D)", "zf_xiaobei"),
    ("🇨🇳 Xiaoni 🚺 (D)", "zf_xiaoni"),
    ("🇨🇳 Xiaoxiao 🚺 (D)", "zf_xiaoxiao"),
    ("🇨🇳 Xiaoyi 🚺 (D)", "zf_xiaoyi"),
    ("🇨🇳 Yunjian 🚹 (D)", "zm_yunjian"),
    ("🇨🇳 Yunxi 🚹 (D)", "zm_yunxi"),
    ("🇨🇳 Yunxia 🚹 (D)", "zm_yunxia"),
    ("🇨🇳 Yunyang 🚹 (D)", "zm_yunyang"),
    ("🇪🇸 Dora 🚺", "ef_dora"),
    ("🇪🇸 Alex 🚹", "em_alex"),
    ("🇪🇸 Santa 🚹", "em_santa"),
    ("🇫🇷 Siwis 🚺 (B-)", "ff_siwis"),
    ("🇮🇳 Alpha 🚺 (C)", "hf_alpha"),
    ("🇮🇳 Beta 🚺 (C)", "hf_beta"),
    ("🇮🇳 Omega 🚹 (C)", "hm_omega"),
    ("🇮🇳 Psi 🚹 (C)", "hm_psi"),
    ("🇮🇹 Sara 🚺 (C)", "if_sara"),
    ("🇮🇹 Nicola 🚹 (C)", "im_nicola"),
    ("🇧🇷 Dora 🚺", "pf_dora"),
    ("🇧🇷 Alex 🚹", "pm_alex"),
    ("🇧🇷 Santa 🚹", "pm_santa") ]

/-- Embeds the `voice_formats` dictionary defined inside `list_voices` in
`src/models/kokoro.py`: the mapping from raw voice codes to formatted display
names, as an association list in source order. -/
def voice_formats : List (String × String) :=
  [ ("af_alloy", "🇺🇸 Alloy 🚺 (C)"),
    ("af_aoede", "🇺🇸 Aoede 🚺 (C+)"),
    ("af_bella", "🇺🇸 Bella 🚺🔥 (A-)"),
    ("af_heart", "🇺🇸 Heart 🚺❤️ (A)"),
    ("af_jessica", "🇺🇸 Jessica 🚺 (D)"),
    ("af_kore", "🇺🇸 Kore 🚺 (C+)"),
    ("af_nicole", "🇺🇸 Nicole 🚺🎧 (B-)"),
    ("af_nova", "🇺🇸 Nova 🚺 (C)"),
    ("af_river", "🇺🇸 River 🚺 (D)"),
    ("af_sarah", "🇺🇸 Sarah 🚺 (C+)"),
    ("af_sky", "🇺🇸 Sky 🚺 (C-)"),
    ("am_adam", "🇺🇸 Adam 🚹 (F+)"),
    ("am_echo", "🇺🇸 Echo 🚹 (D)"),
    ("am_eric", "🇺🇸 Eric 🚹 (D)"),
    ("am_fenrir", "🇺🇸 Fenrir 🚹 (C+)"),
    ("am_liam", "🇺🇸 Liam 🚹 (D)"),
    ("am_michael", "🇺🇸 Michael 🚹 (C+)"),
    ("am_onyx", "🇺🇸 Onyx 🚹 (D)"),
    ("am_puck", "🇺🇸 Puck 🚹 (C+)"),
    ("am_santa", "🇺🇸 Santa 🚹 (D-)"),
    ("bf_alice", "🇬🇧 Alice 🚺 (D)"),
    ("bf_emma", "🇬🇧 Emma 🚺 (B-)"),
    ("bf_isabella", "🇬🇧 Isabella 🚺 (C)"),
    ("bf_lily", "🇬🇧 Lily 🚺 (D)"),
    ("bm_daniel", "🇬🇧 Daniel 🚹 (D)"),
    ("bm_fable", "🇬🇧 Fable 🚹 (C)"),
    ("bm_george", "🇬🇧 George 🚹 (C)"),
    ("bm_lewis", "🇬🇧 Lewis 🚹 (D+)"),
    ("jf_alpha", "🇯🇵 Alpha 🚺 (C+)"),
    ("jf_gongitsune", "🇯🇵 Gongitsune 🚺 (C)"),
    ("jf_nezumi", "🇯🇵 Nezumi 🚺 (C-)"),
    ("jf_tebukuro", "🇯🇵 Tebukuro 🚺 (C)"),
    ("jm_kumo", "🇯🇵 Kumo 🚹 (C-)"),
    ("zf_xiaobei", "🇨🇳 Xiaobei 🚺 (D)"),
    ("zf_xiaoni", "🇨🇳 Xiaoni 🚺 (D)"),
    ("zf_xiaoxiao", "🇨🇳 Xiaoxiao 🚺 (D)"),
    ("zf_xiaoyi", "🇨🇳 Xiaoyi 🚺 (D)"),
    ("zm_yunjian", "🇨🇳 Yunjian 🚹 (D)"),
    ("zm_yunxi", "🇨🇳 Yunxi 🚹 (D)"),
    ("zm_yunxia", "🇨🇳 Yunxia 🚹 (D)"),
    ("zm_yunyang", "🇨🇳 Yunyang 🚹 (D)"),
    ("ef_dora", "🇪🇸 Dora 🚺"),
    ("em_alex", "🇪🇸 Alex 🚹"),
    ("em_santa", "🇪🇸 Santa 🚹"),
    ("ff_siwis", "🇫🇷 Siwis 🚺 (B-)"),
    ("hf_alpha", "🇮🇳 Alpha 🚺 (C)"),
    ("hf_beta", "🇮🇳 Beta 🚺 (C)"),
    ("hm_omega", "🇮🇳 Omega 🚹 (C)"),
    ("hm_psi", "🇮🇳 Psi 🚹 (C)"),
    ("if_sara", "🇮🇹 Sara 🚺 (C)"),
    ("im_nicola", "🇮🇹 Nicola 🚹 (C)"),
    ("pf_dora", "🇧🇷 Dora 🚺"),
    ("pm_alex", "🇧🇷 Alex 🚹"),
    ("pm_santa", "🇧🇷 Santa 🚹") ]

/-- The known canonical voice codes: the values of `_get_voice_mapping`. -/
def known_codes : List String := voice_mapping.map Prod.snd

/-- The known display names: the keys of `_get_voice_mapping`. -/
def known_display_names : List String := voice_mapping.map Prod.fst

/-- Embeds the voice-resolution step of `generate_audio` in
`src/models/kokoro.py` (lines 253-256):
`if voice in voice_mapping: voice = voice_mapping[voice]`. -/
def resolveVoice (voice : String) : String :=
  match voice_mapping.lookup voice with
  | some code => code
  | none => voice

/-- Embeds one step of the formatting loop in `list_voices`
(`voice_formats.get(voice, f"{voice} (Unknown)")`). -/
def formatVoice (voice : String) : String :=
  match voice_formats.lookup voice with
  | some d => d
  | none => voice ++ " (Unknown)"

/-- Embeds the `for voice in raw_voices` accumulation loop of `list_voices`:
`formatted_voices.append(formatted)` starting from the empty list. -/
def format_voices_loop (raw_voices : List String) : List String :=
  raw_voices.foldl (fun acc voice => acc ++ [formatVoice voice]) []

/-- The loaded Kokoro pipeline, abstracting the external `KPipeline` object:
`voices` are the keys of `pipeline.voices`, and `run text voice` is the list of
audio segments the generator `pipeline(text, voice=voice)` yields, in yield
order (each segment being `result.audio.cpu()` as a list of samples). -/
structure KPipeline where
  voices : List String
  run : String → String → List AudioSeg

/-- The hard-coded fallback list returned by `list_voices` in
`src/models/kokoro.py` when loading the model raises. -/
def fallback_voices : List String :=
  [ "🇺🇸 Alloy 🚺 (C)",
    "🇺🇸 Adam 🚹 (F+)",
    "🇬🇧 Emma 🚺 (B-)",
    "🇬🇧 Daniel 🚹 (D)" ]

/-- Embeds `list_voices` from `src/models/kokoro.py`. The outcome of
`_load_kokoro_model()` is passed in as `load` (`Except.error` when the lazy
model load raises). On a load failure the `except Exception` branch returns
the hard-coded fallback display names; otherwise each raw voice code of the
pipeline is formatted through `voice_formats`. -/
def list_voices (load : Except String KPipeline) : List String :=
  match load with
  | .ok pipeline => format_voices_loop pipeline.voices
  | .error _ => fallback_voices

/-- Embeds `torch.cat(audio_segments, dim=0)`: concatenation of the segments
along the time axis, in order. -/
def torch_cat (segments : List AudioSeg) : AudioSeg :=
  segments.foldl (fun acc s => acc ++ s) []

/-- Embeds the `for result in results` collection loop of `generate_audio`:
`audio_segments.append(result.audio.cpu())` starting from the empty list. -/
def collect_segments (results : List AudioSeg) : List AudioSeg :=
  results.foldl (fun acc r => acc ++ [r]) []

/-- Observable outcome of the kokoro backend `generate_audio`:
`result` is the returned path or the raised error message (every exception is
re-raised wrapped as `RuntimeError("Kokoro generation failed: ...")`);
`invokedVoice` is the voice code passed to the pipeline call, when it is
reached; `written` is the waveform handed to `sf.write`, when it is reached. -/
structure KGenOutcome where
  result : Except String String
  invokedVoice : Option String
  written : Option AudioSeg

/-- The prefix the `except Exception` clause of the kokoro `generate_audio`
wraps every failure message with. -/
def kokoroWrap (msg : String) : String :=
  "Kokoro generation failed: " ++ msg

/-- Embeds `generate_audio` from `src/models/kokoro.py`. `load` is the outcome
of `_load_kokoro_model()`; `voice = None` defaults to `af_alloy`; a formatted
display name is converted to its raw code via `_get_voice_mapping`; an
unavailable resolved code raises `ValueError`; the pipeline segments are
collected and concatenated with `torch.cat`, an empty segment list raises
`RuntimeError` before any write, and otherwise the combined waveform is
written to `output_path`, which is returned. -/
def kokoro_generate_audio (load : Except String KPipeline) (text : String)
    (voice : Option String) (output_path : String) : KGenOutcome :=
  let v0 := voice.getD "af_alloy"
  match load with
  | .error e =>
      { result := .error (kokoroWrap e), invokedVoice := none, written := none }
  | .ok pipeline =>
      let v := resolveVoice v0
      if v ∈ pipeline.voices then
        let audio_segments := collect_segments (pipeline.run text v)
        if audio_segments.isEmpty then
          { result := .error (kokoroWrap "No audio generated from Kokoro pipeline"),
            invokedVoice := some v, written := none }
        else
          let combined_audio := torch_cat audio_segments
          { result := .ok output_path, invokedVoice := some v,
            written := some combined_audio }
      else
        { result := .error (kokoroWrap ("Voice " ++ v ++ " not available")),
          invokedVoice := none, written := none }

/-- Embeds the `MODELS` registry of `src/app/app.py`, as an association list
from model name to the module path stored under the `module` key. -/
def MODELS : List (String × String) := [("kokoro", "models.kokoro")]

/-- Errors raised by `get_model_module`: `unknownModel` is the
`ValueError(f"Unknown model: ...")`, `loadFailure` is the
`RuntimeError(f"Failed to load model ...")` wrapping an `ImportError`. -/
inductive GmError where
  | unknownModel (msg : String)
  | loadFailure (msg : String)
  deriving Repr, DecidableEq

/-- The human-readable message of a `get_model_module` error (`str(e)`). -/
def GmError.message : GmError → String
  | .unknownModel m => m
  | .loadFailure m => m

/-- The registry state of `src/app/app.py`: the `_model_modules` cache
(association list from model name to loaded module) together with a counter of
how many times `importlib.import_module` has been executed, so that
re-initialisation is observable. -/
structure RegistryState (M : Type) where
  modules : List (String × M)
  importCalls : Nat

/-- Embeds `get_model_module` from `src/app/app.py`. `importModule` gives the
outcome of `importlib.import_module` on a module path (`Except.error` when
the import raises `ImportError`). If the name is cached the cached module is
returned unchanged; otherwise an unknown name raises `ValueError`, a failed
module import raises `RuntimeError` wrapping the cause, and a successful
load is
stored in the cache. Returns the result together with the updated state. -/
def get_model_module {M : Type} (importModule : String → Except String M)
    (st : RegistryState M) (model_name : String) :
    Except GmError M × RegistryState M :=
  match st.modules.lookup model_name with
  | some m => (.ok m, st)
  | none =>
      match MODELS.lookup model_name with
      | none => (.error (.unknownModel ("Unknown model: " ++ model_name)), st)
      | some module_name =>
          match importModule module_name with
          | .error e =>
              (.error (.loadFailure ("Failed to load model " ++ model_name ++ ": " ++ e)),
               { st with importCalls := st.importCalls + 1 })
          | .ok m =>
              (.ok m,
               { modules := st.modules ++ [(model_name, m)],
                 importCalls := st.importCalls + 1 })

/-- One row of `logs/results.csv` as written by `log_generation`
(the timestamp column is omitted from the model: it is wall-clock time). -/
structure LedgerRow where
  model : String
  speaker : String
  text : String
  duration : Nat
  output_path : String
  deriving Repr, DecidableEq

/-- Embeds `text[:100] + "..." if len(text) > 100 else text` from
`log_generation`. -/
def truncate_text (text : String) : String :=
  if text.length > 100 then text.take 100 ++ "..." else text

/-- Embeds `speaker or "default"`: Python truthiness sends both a missing
voice and an empty-string voice to the literal `"default"`. -/
def speaker_or_default (speaker : Option String) : String :=
  match speaker with
  | none => "default"
  | some s => if s = "" then "default" else s

/-- The external effects `src/app/app.py` depends on, passed in explicitly:
`importKokoro` is the outcome of `importlib.import_module("models.kokoro")`;
`kokoroLoad` is the outcome of `_load_kokoro_model()` inside that module;
`ledgerAppend` is the outcome of the `open`/`csv` append in `log_generation`
(`Except.error` when it raises); `durationProbe` is the best-effort
`soundfile` read-back (`none` when it raises, in which case the duration
defaults to 0); `timestamp` is `int(time.time())`. -/
structure AppEnv where
  importKokoro : Except String Unit
  kokoroLoad : Except String KPipeline
  ledgerAppend : Except String Unit
  durationProbe : Option Nat
  timestamp : Nat

/-- Embeds `log_generation` from `src/app/app.py`. The duration probe is
wrapped in a bare `except: pass` (best-effort, defaults to 0); the CSV append
is not: if opening or writing the log raises, the exception propagates to the
caller. On success, returns the appended row. -/
def log_generation (env : AppEnv) (model : String) (speaker : Option String)
    (text : String) (output_path : String) : Except String LedgerRow :=
  let duration := env.durationProbe.getD 0
  match env.ledgerAppend with
  | .error e => .error e
  | .ok _ =>
      .ok { model := model, speaker := speaker_or_default speaker,
            text := truncate_text text, duration := duration,
            output_path := output_path }

/-- Embeds Python `str.strip()`: removes leading and trailing whitespace
characters. -/
def pyStrip (s : String) : String :=
  ⟨((s.data.dropWhile Char.isWhitespace).reverse.dropWhile Char.isWhitespace).reverse⟩

/-- Response of the `/api/voices/<model_name>` route: either a 200 with the
voice list or a 500 with an error message. -/
inductive VoicesResponse where
  | voicesOk (voices : List String)
  | voicesErr (status : Nat) (error : String)
  deriving Repr, DecidableEq

/-- Embeds the `get_voices` route of `src/app/app.py`: loads the model module
via `get_model_module` (with a fresh process cache), calls its `list_voices`,
and converts any raised exception into `{"error": str(e)}, 500`. -/
def get_voices (env : AppEnv) (model_name : String) : VoicesResponse :=
  match (get_model_module (fun _ => env.importKokoro) ⟨[], 0⟩ model_name).1 with
  | .error e => .voicesErr 500 e.message
  | .ok _ => .voicesOk (list_voices env.kokoroLoad)

/-- Body of a `/api/generate` request: `data.get("model")`,
`data.get("voice")`, `data.get("text", "")`. -/
structure GenRequest where
  model : Option String
  voice : Option String
  text : Option String

/-- Response of the `/api/generate` route: `success` carries the fields of the
200 JSON body this model tracks (`audio_url`, `model`, `voice`,
`audio_duration`); `failure` carries the HTTP status and the error message. -/
inductive GenResponse where
  | success (audio_url : String) (model : String) (voice : Option String)
      (audio_duration : Nat)
  | failure (status : Nat) (error : String)
  deriving Repr, DecidableEq

/-- Observable outcome of one `/api/generate` request: the HTTP response plus
the side effects that occurred while handling it. -/
structure AppOutcome where
  response : GenResponse
  moduleLoadAttempted : Bool
  backendInvoked : Bool
  pipelineVoice : Option String
  fileWritten : Option AudioSeg
  ledgerRow : Option LedgerRow

/-- An outcome in which the handler returned before touching the registry,
the backend, the file system or the ledger. -/
def noEffects (r : GenResponse) : AppOutcome :=
  { response := r, moduleLoadAttempted := false, backendInvoked := false,
    pipelineVoice := none, fileWritten := none, ledgerRow := none }

/-- Embeds the `generate_audio` route of `src/app/app.py`.
Validation: a missing or empty or unregistered model name gives 400
`Invalid model`; text empty after `strip()` gives 400 `Text is required`.
Then the module is loaded through `get_model_module`, the backend synthesis
runs, the duration is probed best-effort, `log_generation` appends the ledger
row, and the 200 body is returned. Every exception raised after validation —
registry, synthesis or ledger append — is caught by the outer `except` and
returned as `{"error": str(e)}, 500`. -/
def app_generate (env : AppEnv) (req : GenRequest) : AppOutcome :=
  let text := pyStrip (req.text.getD "")
  match req.model with
  | none => noEffects (.failure 400 "Invalid model")
  | some model_name =>
      if model_name = "" then noEffects (.failure 400 "Invalid model")
      else
        match MODELS.lookup model_name with
        | none => noEffects (.failure 400 "Invalid model")
        | some _ =>
            if text = "" then noEffects (.failure 400 "Text is required")
            else
              match (get_model_module (fun _ => env.importKokoro) ⟨[], 0⟩ model_name).1 with
              | .error e =>
                  { response := .failure 500 e.message, moduleLoadAttempted := true,
                    backendInvoked := false, pipelineVoice := none,
                    fileWritten := none, ledgerRow := none }
              | .ok _ =>
                  let filename := model_name ++ "_" ++ toString env.timestamp ++ ".wav"
                  let output_path := "static/output/" ++ filename
                  let g := kokoro_generate_audio env.kokoroLoad text req.voice output_path
                  match g.result with
                  | .error e =>
                      { response := .failure 500 e, moduleLoadAttempted := true,
                        backendInvoked := true, pipelineVoice := g.invokedVoice,
                        fileWritten := g.written, ledgerRow := none }
                  | .ok result_path =>
                      let audio_duration := env.durationProbe.getD 0
                      match log_generation env model_name req.voice text result_path with
                      | .error e =>
                          { response := .failure 500 e, moduleLoadAttempted := true,
                            backendInvoked := true, pipelineVoice := g.invokedVoice,
                            fileWritten := g.written, ledgerRow := none }
                      | .ok row =>
                          { response := .success ("/static/output/" ++ filename)
                              model_name req.voice audio_duration,
                            moduleLoadAttempted := true, backendInvoked := true,
                            pipelineVoice := g.invokedVoice, fileWritten := g.written,
                            ledgerRow := some row }

/-- A pipeline whose synthesis yields no segments at all. -/
def demoPipeEmpty : KPipeline :=
  { voices := ["af_bella", "af_alloy"], run := fun _ _ => [] }

/-- A registry import behaviour that succeeds, producing module instance 42. -/
def demoImportOk : String → Except String Nat := fun _ => .ok 42

/-- A registry import behaviour that raises `ImportError`. -/
def demoImportFail : String → Except String Nat :=
  fun _ => .error "No module named kokoro"

/-- The fresh `_model_modules` cache of a new process. -/
def emptyRegistry : RegistryState Nat := { modules := [], importCalls := 0 }

/-- A concrete loaded pipeline used to exercise the handlers: the bella voice
is available and synthesis yields the two segments `[1, 2]` and `[3]`. -/
def demoPipe : KPipeline :=
  { voices := ["af_bella", "af_alloy"], run := fun _ _ => [[1, 2], [3]] }

/-- A fully healthy environment: module import, model load and ledger append
all succeed, the duration probe reads 1 second, the clock reads 7. -/
def demoEnvOk : AppEnv :=
  { importKokoro := .ok (), kokoroLoad := .ok demoPipe,
    ledgerAppend := .ok (), durationProbe := some 1, timestamp := 7 }

/-- The environment of `demoEnvOk` except that appending to the ledger CSV
raises with message `disk full`. -/
def demoEnvLedgerFail : AppEnv :=
  { demoEnvOk with ledgerAppend := .error "disk full" }

/-- The environment of `demoEnvOk` except that `_load_kokoro_model` raises. -/
def demoEnvLoadFail : AppEnv :=
  { demoEnvOk with kokoroLoad := .error "Failed to load Kokoro model" }

/-- The environment of `demoEnvOk` except that importing `models.kokoro`
raises `ImportError`. -/
def demoEnvImportFail : AppEnv :=
  { demoEnvOk with importKokoro := .error "No torch" }

/-- The request of the spec scenario: model `kokoro`, the bella display name,
text `Hello world`. -/
def reqBella : GenRequest :=
  { model := some "kokoro", voice := some "🇺🇸 Bella 🚺🔥 (A-)",
    text := some "Hello world" }

/- ### Helper lemmas -/

/-- Accumulating `acc ++ [f v]` over a list is `map` onto the accumulator. -/
theorem foldl_append_singleton {α β : Type} (f : α → β) :
    ∀ (l : List α) (acc : List β),
      l.foldl (fun a v => a ++ [f v]) acc = acc ++ l.map f := by
  intro l
  induction l with
  | nil => intro acc; simp
  | cons x xs ih => intro acc; simp [ih]

/-- The formatting loop of `list_voices` is a plain `map`. -/
theorem format_voices_loop_eq_map (raw : List String) :
    format_voices_loop raw = raw.map formatVoice := by
  simpa using foldl_append_singleton formatVoice raw []

/-- The segment-collection loop of `generate_audio` keeps the yielded
segments unchanged, in yield order. -/
theorem collect_segments_eq (rs : List AudioSeg) : collect_segments rs = rs := by
  have h := foldl_append_singleton (fun r : AudioSeg => r) rs []
  simpa [collect_segments] using h

/-- Left fold of `++` is concatenation onto the accumulator. -/
theorem foldl_append_eq_join :
    ∀ (l : List AudioSeg) (acc : AudioSeg),
      l.foldl (fun a s => a ++ s) acc = acc ++ l.flatten := by
  intro l
  induction l with
  | nil => intro acc; simp
  | cons x xs ih => intro acc; simp [ih]

/-- `torch.cat` along dimension 0 is ordered list concatenation. -/
theorem torch_cat_eq_join (segs : List AudioSeg) : torch_cat segs = segs.flatten := by
  simpa [torch_cat] using foldl_append_eq_join segs []

/-- Appending a fresh key to an association list in which it was absent makes
it found, with the appended value. -/
theorem lookup_append_of_none {M : Type} (l : List (String × M)) (name : String)
    (m : M) (h : l.lookup name = none) :
    (l ++ [(name, m)]).lookup name = some m := by
  induction l with
  | nil => simp [List.lookup]
  | cons x xs ih =>
      obtain ⟨k, v⟩ := x
      by_cases hk : name == k
      · simp [List.lookup, hk] at h
      · simp only [List.cons_append, List.lookup, hk] at h ⊢
        exact ih h

/-- No canonical voice code occurs as a display-name key of
`_get_voice_mapping`, so resolution leaves every known code unchanged. -/
theorem known_codes_not_display_keys :
    ∀ c ∈ known_codes, voice_mapping.lookup c = none := by decide

/- ### Claim theorems -/

/-- C4: voice resolution is total and never raises; a known display name maps
to its canonical code, a known canonical code is returned unchanged, and any
identifier in neither table passes through unchanged. -/
theorem resolve_spec (identifier : String) :
    (∀ code, voice_mapping.lookup identifier = some code →
       resolveVoice identifier = code) ∧
    (identifier ∈ known_codes → resolveVoice identifier = identifier) ∧
    (voice_mapping.lookup identifier = none → resolveVoice identifier = identifier) := by
  refine ⟨?_, ?_, ?_⟩
  · intro code h
    simp [resolveVoice, h]
  · intro h
    simp [resolveVoice, known_codes_not_display_keys identifier h]
  · intro h
    simp [resolveVoice, h]

/-- Witness for C4: the bella display name resolves to `af_bella`, the code
`af_bella` resolves to itself, and an unknown identifier passes through. -/
theorem resolve_spec_witness :
    resolveVoice "🇺🇸 Bella 🚺🔥 (A-)" = "af_bella" ∧
    resolveVoice "af_bella" = "af_bella" ∧
    resolveVoice "not-a-voice" = "not-a-voice" := by
  refine ⟨(resolve_spec _).1 "af_bella" (by decide),
          (resolve_spec _).2.1 (by decide),
          (resolve_spec _).2.2 (by decide)⟩

/-- C9: the two catalog tables are mutually inverse — every code/display pair
of the `voice_formats` table round-trips through the display-name-to-code
table: resolving the display name of a known code yields exactly that code. -/
theorem catalog_tables_inverse :
    ∀ p ∈ voice_formats, voice_mapping.lookup p.2 = some p.1 := by decide

/-- Witness for C9: the bella pair round-trips. -/
theorem catalog_tables_inverse_witness :
    voice_mapping.lookup "🇺🇸 Bella 🚺🔥 (A-)" = some "af_bella" :=
  catalog_tables_inverse ("af_bella", "🇺🇸 Bella 🚺🔥 (A-)") (by decide)

/-- C8: the display-name listing maps each raw code through the
`voice_formats` table — known codes to their display names, unknown codes `c`
to the fallback label `c ++ " (Unknown)"` — preserving input order, length and
duplicates. -/
theorem list_display_names_spec (rawCodes : List String) :
    format_voices_loop rawCodes =
      rawCodes.map (fun c =>
        match voice_formats.lookup c with
        | some d => d
        | none => c ++ " (Unknown)") ∧
    (format_voices_loop rawCodes).length = rawCodes.length := by
  have h := format_voices_loop_eq_map rawCodes
  constructor
  · exact h
  · rw [h, List.length_map]

/-- C6: whenever the pipeline yields a non-empty list of segments, the
waveform the backend writes is their ordered concatenation along the time
axis, with nothing inserted between them, and the call returns the output
path. -/
theorem concat_law (load : Except String KPipeline) (text : String)
    (voice : Option String) (output_path : String) (p : KPipeline)
    (segs : List AudioSeg)
    (hload : load = .ok p)
    (hv : resolveVoice (voice.getD "af_alloy") ∈ p.voices)
    (hrun : p.run text (resolveVoice (voice.getD "af_alloy")) = segs)
    (hne : segs ≠ []) :
    (kokoro_generate_audio load text voice output_path).written = some segs.flatten ∧
    (kokoro_generate_audio load text voice output_path).result = .ok output_path := by
  subst hload
  simp [kokoro_generate_audio, hv, hrun, collect_segments_eq, torch_cat_eq_join, hne]

/-- Witness for C6: with segments `[1, 2]` and `[3]` the written waveform is
`[1, 2, 3]`. -/
theorem concat_law_witness :
    (kokoro_generate_audio (.ok demoPipe) "Hello world" (some "af_bella") "out.wav").written
      = some ([[1, 2], [3]] : List AudioSeg).flatten ∧
    (kokoro_generate_audio (.ok demoPipe) "Hello world" (some "af_bella") "out.wav").result
      = .ok "out.wav" :=
  concat_law (.ok demoPipe) "Hello world" (some "af_bella") "out.wav" demoPipe
    [[1, 2], [3]] rfl (by decide) rfl (by decide)

/-- C10: if the pipeline yields zero segments, the backend raises a wrapped
generation failure and nothing is written to the output file. -/
theorem empty_synthesis_error (load : Except String KPipeline) (text : String)
    (voice : Option String) (output_path : String) (p : KPipeline)
    (hload : load = .ok p)
    (hv : resolveVoice (voice.getD "af_alloy") ∈ p.voices)
    (hrun : p.run text (resolveVoice (voice.getD "af_alloy")) = []) :
    (kokoro_generate_audio load text voice output_path).result =
      .error (kokoroWrap "No audio generated from Kokoro pipeline") ∧
    (kokoro_generate_audio load text voice output_path).written = none := by
  subst hload
  simp [kokoro_generate_audio, hv, hrun, collect_segments_eq]

/-- Witness for C10: a pipeline yielding no segments produces the wrapped
error and no written waveform. -/
theorem empty_synthesis_error_witness :
    (kokoro_generate_audio (.ok demoPipeEmpty) "Hello" (some "af_bella") "out.wav").result =
      .error (kokoroWrap "No audio generated from Kokoro pipeline") ∧
    (kokoro_generate_audio (.ok demoPipeEmpty) "Hello" (some "af_bella") "out.wav").written = none :=
  empty_synthesis_error (.ok demoPipeEmpty) "Hello" (some "af_bella") "out.wav"
    demoPipeEmpty rfl (by decide) rfl

/-- C7: the registry raises `Unknown model` for names outside `MODELS`, wraps
a failed lazy import as `Failed to load model ...`, and caches a successful
load: a second call with the same name returns the cached instance and leaves
the registry state (including the count of executed imports) unchanged. -/
theorem get_model_module_spec {M : Type} (importModule : String → Except String M)
    (st : RegistryState M) (name : String) :
    (st.modules.lookup name = none → MODELS.lookup name = none →
       (get_model_module importModule st name).1 =
         .error (.unknownModel ("Unknown model: " ++ name))) ∧
    (∀ path e, st.modules.lookup name = none → MODELS.lookup name = some path →
       importModule path = .error e →
       (get_model_module importModule st name).1 =
         .error (.loadFailure ("Failed to load model " ++ name ++ ": " ++ e))) ∧
    (∀ path m, st.modules.lookup name = none → MODELS.lookup name = some path →
       importModule path = .ok m →
       (get_model_module importModule st name).1 = .ok m ∧
       get_model_module importModule (get_model_module importModule st name).2 name =
         (.ok m, (get_model_module importModule st name).2)) := by
  refine ⟨?_, ?_, ?_⟩
  · intro h0 h1
    simp [get_model_module, h0, h1]
  · intro path e h0 h1 h2
    simp [get_model_module, h0, h1, h2]
  · intro path m h0 h1 h2
    have hfst : (get_model_module importModule st name).1 = .ok m := by
      simp [get_model_module, h0, h1, h2]
    refine ⟨hfst, ?_⟩
    have hsnd : (get_model_module importModule st name).2 =
        { modules := st.modules ++ [(name, m)], importCalls := st.importCalls + 1 } := by
      simp [get_model_module, h0, h1, h2]
    rw [hsnd]
    simp [get_model_module, lookup_append_of_none st.modules name m h0]

/-- Witness for C7: with a fresh cache, `bark` is unknown, a raising import of
`kokoro` is wrapped, and a successful load of `kokoro` is returned and then
served from the cache with the registry state unchanged. -/
theorem get_model_module_spec_witness :
    (get_model_module demoImportFail emptyRegistry "bark").1 =
      .error (.unknownModel ("Unknown model: " ++ "bark")) ∧
    (get_model_module demoImportFail emptyRegistry "kokoro").1 =
      .error (.loadFailure ("Failed to load model " ++ "kokoro" ++ ": " ++ "No module named kokoro")) ∧
    (get_model_module demoImportOk emptyRegistry "kokoro").1 = .ok 42 ∧
    get_model_module demoImportOk (get_model_module demoImportOk emptyRegistry "kokoro").2 "kokoro" =
      (.ok 42, (get_model_module demoImportOk emptyRegistry "kokoro").2) :=
  ⟨(get_model_module_spec demoImportFail emptyRegistry "bark").1 rfl rfl,
   (get_model_module_spec demoImportFail emptyRegistry "kokoro").2.1
     "models.kokoro" "No module named kokoro" rfl rfl rfl,
   ((get_model_module_spec demoImportOk emptyRegistry "kokoro").2.2
     "models.kokoro" 42 rfl rfl rfl).1,
   ((get_model_module_spec demoImportOk emptyRegistry "kokoro").2.2
     "models.kokoro" 42 rfl rfl rfl).2⟩

/-- C5: a request whose text is empty or whitespace-only after stripping is
rejected with a 400 validation error, and neither the registry, the backend,
nor the ledger is touched. -/
theorem blank_text_rejected (env : AppEnv) (req : GenRequest)
    (h : pyStrip (req.text.getD "") = "") :
    ((app_generate env req).response = .failure 400 "Invalid model" ∨
     (app_generate env req).response = .failure 400 "Text is required") ∧
    (app_generate env req).moduleLoadAttempted = false ∧
    (app_generate env req).backendInvoked = false ∧
    (app_generate env req).ledgerRow = none := by
  cases hm : req.model with
  | none => simp [app_generate, hm, noEffects]
  | some m =>
      by_cases hm0 : m = ""
      · simp [app_generate, hm, hm0, noEffects]
      · cases hMODELS : MODELS.lookup m with
        | none => simp [app_generate, hm, hm0, hMODELS, noEffects]
        | some path => simp [app_generate, hm, hm0, hMODELS, h, noEffects]

/-- Witness for C5: a whitespace-only text on a valid model is rejected with
`Text is required` and produces no side effects. -/
theorem blank_text_rejected_witness :
    pyStrip ((some "   " : Option String).getD "") = "" ∧
    (((app_generate demoEnvOk { model := some "kokoro", voice := none, text := some "   " }).response
        = .failure 400 "Invalid model" ∨
      (app_generate demoEnvOk { model := some "kokoro", voice := none, text := some "   " }).response
        = .failure 400 "Text is required") ∧
     (app_generate demoEnvOk { model := some "kokoro", voice := none, text := some "   " }).moduleLoadAttempted = false ∧
     (app_generate demoEnvOk { model := some "kokoro", voice := none, text := some "   " }).backendInvoked = false ∧
     (app_generate demoEnvOk { model := some "kokoro", voice := none, text := some "   " }).ledgerRow = none) :=
  ⟨by decide,
   blank_text_rejected demoEnvOk { model := some "kokoro", voice := none, text := some "   " } (by decide)⟩

/-- Counterexample to C1 as stated: in an environment where validation passes
and synthesis succeeds (the output waveform is written) but the ledger append
raises `disk full`, the request does not return a success result — the
handler returns the 500 error payload. -/
theorem ledger_failure_fails_request_cex :
    (app_generate demoEnvLedgerFail reqBella).fileWritten = some [1, 2, 3] ∧
    (app_generate demoEnvLedgerFail reqBella).response = .failure 500 "disk full" := by
  decide

/-- C1 (amended): a failure of the ledger-append step is on the critical path.
When validation passes, the module import succeeds and backend synthesis
succeeds, but appending to the ledger CSV raises, the request fails with a
500 error carrying the append failure message, even though the audio file was
already written; only the duration probing inside `log_generation` is
best-effort. -/
theorem ledger_failure_fails_request (env : AppEnv) (req : GenRequest)
    (p : KPipeline) (e : String)
    (hm : req.model = some "kokoro")
    (ht : pyStrip (req.text.getD "") ≠ "")
    (hi : env.importKokoro = .ok ())
    (hp : env.kokoroLoad = .ok p)
    (hv : resolveVoice (req.voice.getD "af_alloy") ∈ p.voices)
    (hs : p.run (pyStrip (req.text.getD "")) (resolveVoice (req.voice.getD "af_alloy")) ≠ [])
    (he : env.ledgerAppend = .error e) :
    (app_generate env req).response = .failure 500 e ∧
    (app_generate env req).fileWritten ≠ none ∧
    (app_generate env req).ledgerRow = none := by
  simp [app_generate, hm, ht, MODELS, get_model_module, hi, hp, hv, hs, he,
    kokoro_generate_audio, collect_segments_eq, log_generation]

/-- Witness for C1 (amended): the concrete `disk full` environment. -/
theorem ledger_failure_fails_request_witness :
    (app_generate demoEnvLedgerFail reqBella).response = .failure 500 "disk full" ∧
    (app_generate demoEnvLedgerFail reqBella).fileWritten ≠ none ∧
    (app_generate demoEnvLedgerFail reqBella).ledgerRow = none :=
  ledger_failure_fails_request demoEnvLedgerFail reqBella demoPipe "disk full"
    rfl (by decide) rfl rfl (by decide) (by decide) rfl

/-- Counterexample to C2 as stated: for the bella scenario request the
pipeline does receive the canonical code `af_bella`, but the ledger row's
speaker field holds the raw display string, not `af_bella`. -/
theorem bella_ledger_speaker_cex :
    (app_generate demoEnvOk reqBella).pipelineVoice = some "af_bella" ∧
    (app_generate demoEnvOk reqBella).ledgerRow.map LedgerRow.speaker =
      some "🇺🇸 Bella 🚺🔥 (A-)" ∧
    some "🇺🇸 Bella 🚺🔥 (A-)" ≠ some ("af_bella" : String) := by
  decide

/-- C2 (amended): for the request `{model: kokoro, voice: the bella display
name, text: Hello world}` the voice is resolved to `af_bella` before the
pipeline is invoked — the pipeline receives the code, not the display string —
while the ledger row records the raw request value, the display name, in its
speaker field. -/
theorem bella_roundtrip (env : AppEnv) (p : KPipeline)
    (hi : env.importKokoro = .ok ())
    (hp : env.kokoroLoad = .ok p)
    (hv : "af_bella" ∈ p.voices)
    (hs : p.run "Hello world" "af_bella" ≠ [])
    (hl : env.ledgerAppend = .ok ()) :
    (app_generate env reqBella).pipelineVoice = some "af_bella" ∧
    (app_generate env reqBella).ledgerRow.map LedgerRow.speaker =
      some "🇺🇸 Bella 🚺🔥 (A-)" := by
  have hstrip : pyStrip "Hello world" = "Hello world" := by decide
  have hres : resolveVoice "🇺🇸 Bella 🚺🔥 (A-)" = "af_bella" := by decide
  simp [app_generate, reqBella, MODELS, get_model_module, hi, hp, hstrip, hres,
    hv, hs, kokoro_generate_audio, collect_segments_eq, log_generation, hl,
    speaker_or_default]

/-- Witness for C2 (amended): the healthy concrete environment. -/
theorem bella_roundtrip_witness :
    (app_generate demoEnvOk reqBella).pipelineVoice = some "af_bella" ∧
    (app_generate demoEnvOk reqBella).ledgerRow.map LedgerRow.speaker =
      some "🇺🇸 Bella 🚺🔥 (A-)" :=
  bella_roundtrip demoEnvOk demoPipe rfl rfl (by decide) (by decide) rfl

/-- Counterexample to C3 as stated: with the module import succeeding but the
Kokoro model load raising, the voices endpoint answers 200 with the hard-coded
fallback voice list — a voice list, not an error payload. -/
theorem voices_load_failure_cex :
    get_voices demoEnvLoadFail "kokoro" = .voicesOk fallback_voices := by
  decide

/-- C3 (amended): the voices endpoint returns an error payload with status 500
exactly for an unknown model name or a failed module import; when the
module imports but the backend's own lazy model load fails, `list_voices` swallows
the failure and the endpoint returns the hard-coded fallback display names
with a success status. -/
theorem get_voices_spec (env : AppEnv) (model_name : String) :
    (MODELS.lookup model_name = none →
       get_voices env model_name =
         .voicesErr 500 ("Unknown model: " ++ model_name)) ∧
    (∀ path e, MODELS.lookup model_name = some path → env.importKokoro = .error e →
       get_voices env model_name =
         .voicesErr 500 ("Failed to load model " ++ model_name ++ ": " ++ e)) ∧
    (∀ path, MODELS.lookup model_name = some path → env.importKokoro = .ok () →
       get_voices env model_name = .voicesOk (list_voices env.kokoroLoad)) ∧
    (∀ e, env.kokoroLoad = .error e →
       list_voices env.kokoroLoad = fallback_voices) := by
  refine ⟨?_, ?_, ?_, ?_⟩
  · intro h
    simp [get_voices, get_model_module, h, GmError.message]
  · intro path e h0 h1
    simp [get_voices, get_model_module, h0, h1, GmError.message]
  · intro path h0 h1
    simp [get_voices, get_model_module, h0, h1]
  · intro e h
    simp [list_voices, h]

/-- Witness for C3 (amended): `bark` is unknown, a raising import of the
kokoro module yields the wrapped 500, and a raising model load yields the 200
fallback voice list. -/
theorem get_voices_spec_witness :
    get_voices demoEnvOk "bark" = .voicesErr 500 ("Unknown model: " ++ "bark") ∧
    get_voices demoEnvImportFail "kokoro" =
      .voicesErr 500 ("Failed to load model " ++ "kokoro" ++ ": " ++ "No torch") ∧
    get_voices demoEnvLoadFail "kokoro" = .voicesOk fallback_voices :=
  ⟨(get_voices_spec demoEnvOk "bark").1 rfl,
   (get_voices_spec demoEnvImportFail "kokoro").2.1 "models.kokoro" "No torch" rfl rfl,
   by
     have h3 := (get_voices_spec demoEnvLoadFail "kokoro").2.2.1 "models.kokoro" rfl rfl
     have h4 := (get_voices_spec demoEnvLoadFail "kokoro").2.2.2
       "Failed to load Kokoro model" rfl
     rw [h3, h4]⟩

end NeoTTS
